import Mathlib

/-!
# Verification of the real-time transcription session engine

Shallow embedding of `src/services/realtime_service.py`
(`RealTimeTranscriptionService`) from the Smart-Meeting-Assistant
repository, together with proofs about the claims of the spec.

Modelling conventions:
* Machine timestamps (`datetime.now()`) are abstracted away: session and
  segment records keep only the data the claims are about.  The timestamp fields of the spec
  (`createdAt`, `receivedAt`, `producedAt`, `ended_at`)
  never influence control flow in the source.
* Audio bytes are abstracted to their byte count (`Nat`): the source only
  ever measures the buffer (`tell()`, `len`) and hands the raw bytes to the
  external transcription capability, which we model as an oracle.
* The external Transcription Capability is an oracle parameter of type
  `FlushOutcome`: either the transcription text the capability produced
  (`""` for a failed/empty transcription, exactly as `_transcribe_chunk`
  normalises failures to `""`), or an exception escaping the buffer
  processing (`wave`/IO errors), which `_process_buffer` turns into an
  error dictionary.
* The external Insight Capability (`analysis_service.analyze_meeting`) is
  modelled by the Boolean `insightInvoked` recording whether the call is
  made; its result is opaque to every claim.
* Python `float` division in duration accounting is modelled by exact
  division in `ℚ`.
-/

namespace RealTime

/-- Python case-insensitive preparation: `str.lower()` on ASCII text,
as applied by `_update_live_analysis` (`text_lower = new_text.lower()`). -/
def lowerStr (s : String) : String := ⟨s.data.map Char.toLower⟩

/-- True in `startsWithL pat l` exactly when `pat` is a prefix of `l`. -/
def startsWithL : List Char → List Char → Bool
  | [], _ => true
  | _ :: _, [] => false
  | a :: as, b :: bs => a == b && startsWithL as bs

/-- True in `seqContains hay pat` exactly when `pat` occurs contiguously in `hay`. -/
def seqContains : List Char → List Char → Bool
  | hay, pat =>
    startsWithL pat hay ||
      match hay with
      | [] => false
      | _ :: rest => seqContains rest pat

/-- Python substring containment `pat in hay` on strings. -/
def strContains (hay pat : String) : Bool := seqContains hay.data pat.data

/-- Python `str.split()` with no argument: whitespace-separated tokens,
empty tokens dropped. -/
def splitWords (s : String) : List String :=
  (s.split Char.isWhitespace).filter (fun w => w ≠ "")

/-- Drop leading whitespace characters. -/
def dropWS : List Char → List Char
  | [] => []
  | c :: cs => if c.isWhitespace then dropWS cs else c :: cs

/-- Python `str.strip()` with no argument: remove leading and trailing
whitespace. -/
def stripStr (s : String) : String :=
  ⟨(dropWS (dropWS s.data).reverse).reverse⟩

/-- The live rolling analysis snapshot created in `create_session`
(`live_analysis` dictionary). -/
structure LiveAnalysis where
  wordCount : Nat
  speakersDetected : Nat
  currentTopic : String
  sentiment : String
  actionItemsDetected : Nat
  deriving Repr, DecidableEq

/-- The `live_analysis` snapshot as initialised by `create_session`. -/
def initAnalysis : LiveAnalysis :=
  { wordCount := 0
    speakersDetected := 0
    currentTopic := "Unknown"
    sentiment := "neutral"
    actionItemsDetected := 0 }

/-- The `keywords` dict of `_update_live_analysis`, in Python dict
insertion (iteration) order. -/
def topicKeywords : List (String × List String) :=
  [("planning", ["plan", "schedule", "timeline", "roadmap"]),
   ("technical", ["code", "bug", "feature", "development", "api"]),
   ("business", ["revenue", "customer", "market", "sales"]),
   ("meeting", ["agenda", "action", "decision", "review"])]

/-- The `action_indicators` list of `_update_live_analysis`. -/
def actionIndicators : List String :=
  ["todo", "action", "assign", "responsible", "deadline", "due"]

/-- The `positive_words` list of `_update_live_analysis`. -/
def positiveWords : List String :=
  ["good", "great", "excellent", "success", "positive"]

/-- The `negative_words` list of `_update_live_analysis`. -/
def negativeWords : List String :=
  ["issue", "problem", "concern", "difficult", "challenge"]

/-- Embedding of `RealTimeTranscriptionService._update_live_analysis`:
word count, topic keyword scan with `break` on first hit, action-item
indicator scan, and keyword sentiment. -/
def updateLiveAnalysis (a : LiveAnalysis) (newText : String) : LiveAnalysis :=
  let words := splitWords newText
  let a1 := { a with wordCount := a.wordCount + words.length }
  let textLower := lowerStr newText
  let a2 :=
    match topicKeywords.find? (fun p => p.2.any (fun w => strContains textLower w)) with
    | some p => { a1 with currentTopic := p.1 }
    | none => a1
  let a3 :=
    if actionIndicators.any (fun w => strContains textLower w) then
      { a2 with actionItemsDetected := a2.actionItemsDetected + 1 }
    else a2
  let positiveCount := (positiveWords.filter (fun w => strContains textLower w)).length
  let negativeCount := (negativeWords.filter (fun w => strContains textLower w)).length
  { a3 with sentiment :=
      if positiveCount > negativeCount then "positive"
      else if negativeCount > positiveCount then "negative"
      else "neutral" }

/-- One transcription segment appended by `_process_buffer`
(a dictionary of timestamp, text and duration; timestamp abstracted). -/
structure Segment where
  text : String
  duration : ℚ
  deriving Repr, DecidableEq

/-- One session dictionary of `active_sessions` (timestamps and the
unused `partial_transcriptions` list abstracted away; the `audio_buffer`
`BytesIO` is modelled by its byte count, `audio_chunks` by the list of
chunk byte sizes). -/
structure Session where
  audioChunks : List Nat
  segments : List Segment
  liveAnalysis : LiveAnalysis
  audioBuffer : Nat
  isActive : Bool
  deriving Repr, DecidableEq

/-- The fresh session dictionary built by `create_session`. -/
def freshSession : Session :=
  { audioChunks := []
    segments := []
    liveAnalysis := initAnalysis
    audioBuffer := 0
    isActive := true }

/-- Service state: the `active_sessions` dict (as an association list)
plus the multiset of deferred-cleanup threads started by `end_session`,
recorded as the list of session ids a reclamation is scheduled for. -/
structure ServiceState where
  sessions : List (String × Session)
  reclaims : List String
  deriving Repr, DecidableEq

/-- State of a freshly constructed service (`active_sessions = {}`). -/
def emptyState : ServiceState := { sessions := [], reclaims := [] }

/-- Dictionary lookup `active_sessions[session_id]`. -/
def lookupSession (st : ServiceState) (sid : String) : Option Session :=
  (st.sessions.find? (fun p => p.1 == sid)).map (·.2)

/-- Dictionary store `active_sessions[session_id] = sess` (replaces an
existing binding, else appends). -/
def storeSession (l : List (String × Session)) (sid : String) (sess : Session) :
    List (String × Session) :=
  match l with
  | [] => [(sid, sess)]
  | (k, v) :: rest =>
    if k == sid then (k, sess) :: rest else (k, v) :: storeSession rest sid sess

/-- The `sample_rate` attribute of the service (`16000`). -/
def sampleRate : Nat := 16000

/-- The flush threshold of `process_audio_chunk`:
`self.sample_rate * 2 * 3`, three seconds of 16-bit mono audio. -/
def flushThreshold : Nat := sampleRate * 2 * 3

/-- Outcome of the external transcription attempt made during a flush.
`ok t` is `_transcribe_chunk` returning text `t` (where `t = ""` covers
both an empty transcription and a capability failure, which
`_transcribe_chunk` catches and converts to `""`); `exn msg` is an
exception escaping the body of `_process_buffer` (e.g. from the `wave`
module), caught by its `except` clause. -/
inductive FlushOutcome where
  | ok (text : String)
  | exn (msg : String)
  deriving Repr, DecidableEq

/-- Result dictionary returned by `process_audio_chunk` /
`_process_buffer`, one constructor per dictionary shape in the source. -/
inductive ChunkResponse where
  | error (msg : String)
  | buffering (sessionId : String) (bufferSize : Nat) (chunksReceived : Nat)
  | transcribed (sessionId : String) (segment : Segment)
      (liveAnalysis : LiveAnalysis) (totalSegments : Nat)
  | noTranscription (sessionId : String) (bufferCleared : Bool)
  deriving Repr, DecidableEq

/-- Embedding of `RealTimeTranscriptionService._process_buffer`, with the
transcription outcome passed as an oracle.  On non-empty text a segment
is appended, the live analysis updated and the buffer replaced by a fresh
`BytesIO`; on empty text the source returns
a no_transcription dictionary carrying `buffer_cleared: True` WITHOUT
resetting the session audio_buffer; on an exception it returns the
error dictionary, also without resetting the buffer.  (The none branch
is unreachable from `process_audio_chunk`; its KeyError message is
abstracted.) -/
def processBuffer (st : ServiceState) (sid : String) (fl : FlushOutcome) :
    ChunkResponse × ServiceState :=
  match lookupSession st sid with
  | none => (.error ("KeyError: " ++ sid), st)
  | some sess =>
    match fl with
    | .exn msg => (.error msg, st)
    | .ok t =>
      if t ≠ "" then
        let seg : Segment := { text := t, duration := (sess.audioBuffer : ℚ) / ((sampleRate : ℚ) * 2) }
        let sess2 : Session :=
          { sess with
              segments := sess.segments ++ [seg]
              liveAnalysis := updateLiveAnalysis sess.liveAnalysis t
              audioBuffer := 0 }
        (.transcribed sid seg sess2.liveAnalysis (sess2.segments.length),
         { st with sessions := storeSession st.sessions sid sess2 })
      else
        (.noTranscription sid true, st)

/-- Embedding of `RealTimeTranscriptionService.process_audio_chunk`:
unknown ids raise `ValueError` (caught by the except clause of the
method, producing the error dictionary); otherwise the chunk is written
to the buffer, its metadata recorded, and the buffer processed when its
size reaches `sample_rate * 2 * 3`.  `dataLen` is `len(audio_data)` and
`fl` the oracle outcome of the transcription attempted if a flush
happens.  Note the source never consults `is_active`. -/
def processAudioChunk (st : ServiceState) (sid : String) (dataLen : Nat)
    (fl : FlushOutcome) : ChunkResponse × ServiceState :=
  match lookupSession st sid with
  | none => (.error ("Session " ++ sid ++ " not found"), st)
  | some sess =>
    let sess1 : Session :=
      { sess with
          audioBuffer := sess.audioBuffer + dataLen
          audioChunks := sess.audioChunks ++ [dataLen] }
    let st1 : ServiceState := { st with sessions := storeSession st.sessions sid sess1 }
    if sess1.audioBuffer ≥ flushThreshold then
      processBuffer st1 sid fl
    else
      (.buffering sid sess1.audioBuffer sess1.audioChunks.length, st1)

/-- Embedding of `RealTimeTranscriptionService.create_session`: builds a
fresh session dictionary and stores it under the id unconditionally — the
source performs no duplicate check, so an existing binding is replaced. -/
def createSession (st : ServiceState) (sid : String) : Session × ServiceState :=
  (freshSession, { st with sessions := storeSession st.sessions sid freshSession })

/-- The summary dictionary built by `get_session_summary` (timestamps
abstracted; `final_analysis` is the opaque result of the external
Insight Capability, so only the fact of its invocation, `insightInvoked =
bool(full_transcription.strip())`, is modelled). -/
structure Summary where
  sessionId : String
  totalSegments : Nat
  totalChunks : Nat
  fullTranscription : String
  liveAnalysis : LiveAnalysis
  insightInvoked : Bool
  durationSeconds : ℚ
  deriving Repr, DecidableEq

/-- Result of `get_session_summary` / `end_session`: either the summary
dictionary or the error dictionary. -/
inductive SummaryResponse where
  | error (msg : String)
  | ok (s : Summary)
  deriving Repr, DecidableEq

/-- The summary dictionary `get_session_summary` builds for an existing
session: transcript = `" ".join(segment texts)`; the Insight Capability
(`analysis_service.analyze_meeting`) runs iff the joined transcript is
truthy after `.strip()`; `duration_seconds` =
`sum(chunk sizes) / (sample_rate * 2)`. -/
def summaryOf (sid : String) (sess : Session) : Summary :=
  let fullTranscription := String.intercalate " " (sess.segments.map (·.text))
  { sessionId := sid
    totalSegments := sess.segments.length
    totalChunks := sess.audioChunks.length
    fullTranscription := fullTranscription
    liveAnalysis := sess.liveAnalysis
    insightInvoked := stripStr fullTranscription ≠ ""
    durationSeconds := (sess.audioChunks.sum : ℚ) / ((sampleRate : ℚ) * 2) }

/-- Embedding of `RealTimeTranscriptionService.get_session_summary`:
builds the summary dictionary for an existing session; unknown ids raise
`ValueError`, caught by the except clause into the error dictionary.
The method body contains no assignment to the session or the registry
and starts no thread, so the state component is returned untouched. -/
def getSessionSummary (st : ServiceState) (sid : String) :
    SummaryResponse × ServiceState :=
  match lookupSession st sid with
  | none => (.error ("Session " ++ sid ++ " not found"), st)
  | some sess => (.ok (summaryOf sid sess), st)

/-- Embedding of `RealTimeTranscriptionService.end_session`: computes the
summary via `get_session_summary`, sets `is_active = False`, and starts a
fresh daemon cleanup thread (modelled by appending the id to `reclaims`)
— the source starts a new thread on every call, even for an
already-ended session. -/
def endSession (st : ServiceState) (sid : String) : SummaryResponse × ServiceState :=
  match lookupSession st sid with
  | none => (.error ("Session " ++ sid ++ " not found"), st)
  | some sess =>
    let summary := (getSessionSummary st sid).1
    let st1 : ServiceState :=
      { st with
          sessions := storeSession st.sessions sid { sess with isActive := false }
          reclaims := st.reclaims ++ [sid] }
    (summary, st1)

/-- The body of the `cleanup` closure of `end_session`, run when the
5-minute timer fires: remove the session if the id is still present. -/
def runReclaim (st : ServiceState) (sid : String) : ServiceState :=
  match lookupSession st sid with
  | none => st
  | some _ => { st with sessions := st.sessions.filter (fun p => !(p.1 == sid)) }

/-! ## Spec-side definitions

These follow the wording of the spec, to be compared against the embedded
source functions above. -/

/-- Spec wording (§4.4 step 4): the count of case-insensitive
occurrences of a fixed word list within a segment text — the number of
list words occurring (as substrings, case-insensitively) in the text. -/
def occurringCount (ws : List String) (t : String) : Nat :=
  (ws.filter (fun w => strContains (lowerStr t) w)).length

/-- Spec wording (§4.4 step 2): the keyword list of a topic rule has some
case-insensitive substring match in the segment text. -/
def topicMatch (ws : List String) (t : String) : Bool :=
  ws.any (fun w => strContains (lowerStr t) w)

/-- Spec wording (§4.4 step 3): some fixed indicator substring occurs
case-insensitively in the segment text. -/
def anyIndicator (t : String) : Bool :=
  actionIndicators.any (fun w => strContains (lowerStr t) w)

end RealTime

namespace RealTime

/-! ## Helper lemmas -/

theorem lookupSession_store (l : List (String × Session)) (r : List String)
    (sid : String) (v : Session) :
    lookupSession ⟨storeSession l sid v, r⟩ sid = some v := by
  induction l with
  | nil => simp [lookupSession, storeSession, List.find?]
  | cons p rest ih =>
    obtain ⟨k, w⟩ := p
    by_cases hk : k = sid
    · simp [lookupSession, storeSession, hk, List.find?]
    · have hk' : (k == sid) = false := by simpa using hk
      simpa [lookupSession, storeSession, hk', List.find?] using ih

theorem storeSession_idem (l : List (String × Session)) (sid : String)
    (v w : Session) :
    storeSession (storeSession l sid v) sid w = storeSession l sid w := by
  induction l with
  | nil => simp [storeSession]
  | cons p rest ih =>
    obtain ⟨k, u⟩ := p
    by_cases hk : k = sid
    · simp [storeSession, hk]
    · have hk' : (k == sid) = false := by simpa using hk
      simp [storeSession, hk', ih]

theorem lookupSession_filter_self (l : List (String × Session)) (r : List String)
    (sid : String) :
    lookupSession ⟨l.filter (fun p => !(p.1 == sid)), r⟩ sid = none := by
  induction l with
  | nil => simp [lookupSession]
  | cons p rest ih =>
    obtain ⟨k, w⟩ := p
    by_cases hk : k = sid
    · simp [List.filter_cons, hk, ih]
    · have hk' : (k == sid) = false := by simpa using hk
      simp [lookupSession, List.filter_cons, hk', List.find?, ih]

theorem runReclaim_idem (st : ServiceState) (sid : String) :
    runReclaim (runReclaim st sid) sid = runReclaim st sid := by
  unfold runReclaim
  cases h : lookupSession st sid with
  | none => simp [h]
  | some sess =>
    simp only [h]
    rw [lookupSession_filter_self st.sessions st.reclaims sid]

/-! ## Claim theorems -/

/-- C5: on every live-analysis update with segment text `t`, the sentiment
is computed from the counts of case-insensitive occurrences of the fixed
positive-word and negative-word lists within `t` alone (independent of
the previous analysis, hence not cumulative): positive count greater
than negative yields `"positive"`, negative greater than positive yields
`"negative"`, otherwise `"neutral"`, overwriting the previous value. -/
theorem sentiment_from_segment_counts (a : LiveAnalysis) (t : String) :
    (updateLiveAnalysis a t).sentiment =
      (if occurringCount positiveWords t > occurringCount negativeWords t then "positive"
       else if occurringCount negativeWords t > occurringCount positiveWords t then "negative"
       else "neutral")
    ∧ ∀ b : LiveAnalysis,
        (updateLiveAnalysis b t).sentiment = (updateLiveAnalysis a t).sentiment := by
  constructor
  · unfold updateLiveAnalysis occurringCount
    cases h : topicKeywords.find? (fun p => p.2.any (fun w => strContains (lowerStr t) w)) with
    | none => simp only [h]
    | some p => simp only [h]
  · intro b
    unfold updateLiveAnalysis
    cases h : topicKeywords.find? (fun p => p.2.any (fun w => strContains (lowerStr t) w)) with
    | none => simp only [h]
    | some p => simp only [h]

/-- C6: on every live-analysis update with segment text `t`,
`currentTopic` is set by the first rule in the fixed priority order
planning, technical, business, meeting whose keyword list has a
case-insensitive substring match in `t`; when no rule matches,
`currentTopic` keeps its previous value. -/
theorem currentTopic_first_rule_priority (a : LiveAnalysis) (t : String) :
    (updateLiveAnalysis a t).currentTopic =
      (if topicMatch ["plan", "schedule", "timeline", "roadmap"] t then "planning"
       else if topicMatch ["code", "bug", "feature", "development", "api"] t then "technical"
       else if topicMatch ["revenue", "customer", "market", "sales"] t then "business"
       else if topicMatch ["agenda", "action", "decision", "review"] t then "meeting"
       else a.currentTopic) := by
  unfold updateLiveAnalysis topicMatch
  cases h1 : List.any ["plan", "schedule", "timeline", "roadmap"]
      (fun w => strContains (lowerStr t) w) <;>
  cases h2 : List.any ["code", "bug", "feature", "development", "api"]
      (fun w => strContains (lowerStr t) w) <;>
  cases h3 : List.any ["revenue", "customer", "market", "sales"]
      (fun w => strContains (lowerStr t) w) <;>
  cases h4 : List.any ["agenda", "action", "decision", "review"]
      (fun w => strContains (lowerStr t) w) <;>
  simp [topicKeywords, List.find?, h1, h2, h3, h4] <;>
  split <;> rfl

/-- C7: on every live-analysis update with segment text `t`,
`actionItemsDetected` grows by exactly 1 when any of the fixed indicator
substrings occurs case-insensitively in `t` (no matter how many match)
and by 0 otherwise; in particular the text
"We need to assign this as an action item, deadline Friday" — which
contains several indicators — increments it by exactly 1. -/
theorem actionItems_increment_at_most_once (a : LiveAnalysis) (t : String) :
    (updateLiveAnalysis a t).actionItemsDetected =
      a.actionItemsDetected + (if anyIndicator t then 1 else 0)
    ∧ (updateLiveAnalysis initAnalysis
         "We need to assign this as an action item, deadline Friday").actionItemsDetected =
        initAnalysis.actionItemsDetected + 1 := by
  constructor
  · unfold updateLiveAnalysis anyIndicator
    cases hf : topicKeywords.find? (fun p => p.2.any (fun w => strContains (lowerStr t) w)) <;>
      simp [hf] <;> split <;> rfl
  · decide

theorem processBuffer_preserves_chunks (st : ServiceState) (sid : String)
    (sess : Session) (fl : FlushOutcome) (h : lookupSession st sid = some sess) :
    ∃ sess2 : Session,
      lookupSession (processBuffer st sid fl).2 sid = some sess2
      ∧ sess2.audioChunks = sess.audioChunks := by
  simp only [processBuffer, h]
  cases fl with
  | exn msg => exact ⟨sess, h, rfl⟩
  | ok t =>
    by_cases ht : t = ""
    · subst ht
      simp only [ne_eq, not_true_eq_false, if_false, reduceIte]
      exact ⟨sess, h, rfl⟩
    · simp only [ne_eq, ht, not_false_eq_true, if_true, reduceIte]
      exact ⟨_, lookupSession_store st.sessions st.reclaims sid _, rfl⟩

/-- C1 (code-bug evidence): the chunk that brings the buffer to the flush
threshold while the transcription attempt yields empty text (the
`no_transcription` / `FLUSH_FAILED` turn) leaves `audio_buffer` at the
full threshold size — the response dictionary of the source even reports
`buffer_cleared: True` while the session audio_buffer is not reset; the
exception path of `_process_buffer` behaves the same.  So the invariant
"pending buffer `< flushThreshold` immediately after processing any
chunk" is violated by the code at this input. -/
theorem pendingBuffer_not_cleared_on_failed_flush :
    (processAudioChunk (createSession emptyState "s1").2 "s1" flushThreshold
        (FlushOutcome.ok "")).1 = ChunkResponse.noTranscription "s1" true
    ∧ (lookupSession (processAudioChunk (createSession emptyState "s1").2 "s1"
        flushThreshold (FlushOutcome.ok "")).2 "s1").map Session.audioBuffer
        = some flushThreshold
    ∧ (processAudioChunk (createSession emptyState "s1").2 "s1" flushThreshold
        (FlushOutcome.exn "wave error")).1 = ChunkResponse.error "wave error"
    ∧ (lookupSession (processAudioChunk (createSession emptyState "s1").2 "s1"
        flushThreshold (FlushOutcome.exn "wave error")).2 "s1").map Session.audioBuffer
        = some flushThreshold
    ∧ ¬ flushThreshold < flushThreshold := by decide

/-- C2 (counterexample): after `end_session`, the session is present with
`is_active = False`, yet `process_audio_chunk` does not fail — it returns
a `buffering` status, records the chunk metadata, and a later
threshold-reaching chunk even appends a transcription segment.  This
refutes the claim that an inactive session rejects audio with
`SessionInactiveError` and stays unchanged. -/
theorem inactive_session_still_accepts_audio :
    (lookupSession (endSession (createSession emptyState "s2").2 "s2").2 "s2").map
        Session.isActive = some false
    ∧ (processAudioChunk (endSession (createSession emptyState "s2").2 "s2").2 "s2" 7
        (FlushOutcome.ok "")).1 = ChunkResponse.buffering "s2" 7 1
    ∧ (lookupSession (processAudioChunk (endSession (createSession emptyState "s2").2
        "s2").2 "s2" 7 (FlushOutcome.ok "")).2 "s2").map Session.audioChunks = some [7]
    ∧ (lookupSession (processAudioChunk (endSession (createSession emptyState "s2").2
        "s2").2 "s2" flushThreshold (FlushOutcome.ok "hello")).2 "s2").map
        (fun s => s.segments.length) = some 1 := by decide

/-- C2 (amended): `process_audio_chunk` never consults `is_active`: for
any present session — in particular one already ended — the chunk is
still accepted, its metadata appended to `audio_chunks`, and segments can
still be appended; only unknown session ids fail. -/
theorem processChunk_ignores_inactive (st : ServiceState) (sid : String)
    (sess : Session) (dataLen : Nat) (fl : FlushOutcome)
    (h : lookupSession st sid = some sess) (_hin : sess.isActive = false) :
    ∃ sess2 : Session,
      lookupSession (processAudioChunk st sid dataLen fl).2 sid = some sess2
      ∧ sess2.audioChunks = sess.audioChunks ++ [dataLen] := by
  simp only [processAudioChunk, h]
  split
  · obtain ⟨sess2, hl2, hc⟩ :=
      processBuffer_preserves_chunks _ sid _ fl
        (lookupSession_store st.sessions st.reclaims sid
          { sess with
              audioBuffer := sess.audioBuffer + dataLen
              audioChunks := sess.audioChunks ++ [dataLen] })
    exact ⟨sess2, hl2, by rw [hc]⟩
  · exact ⟨_, lookupSession_store st.sessions st.reclaims sid _, rfl⟩

theorem processChunk_ignores_inactive_witness :
    ∃ sess2 : Session,
      lookupSession (processAudioChunk (endSession (createSession emptyState "w2").2
          "w2").2 "w2" 7 (FlushOutcome.ok "")).2 "w2" = some sess2
      ∧ sess2.audioChunks =
          ({ freshSession with isActive := false } : Session).audioChunks ++ [7] :=
  processChunk_ignores_inactive (endSession (createSession emptyState "w2").2 "w2").2
    "w2" { freshSession with isActive := false } 7 (FlushOutcome.ok "")
    (by decide) (by decide)

/-- C3 (counterexample): `create_session` on an id that is already bound
does not fail — it returns a fresh session and replaces the existing
state of the existing session (here `audio_chunks` drops from `[5]` to `[]`), refuting
the claim that creation fails with `DuplicateSessionError` and leaves the
existing session unchanged. -/
theorem create_overwrites_existing_session :
    (createSession ⟨[("s3", { freshSession with audioChunks := [5] })], []⟩ "s3").1
        = freshSession
    ∧ lookupSession
        (createSession ⟨[("s3", { freshSession with audioChunks := [5] })], []⟩ "s3").2
        "s3" = some freshSession
    ∧ lookupSession ⟨[("s3", { freshSession with audioChunks := [5] })], []⟩ "s3"
        ≠ some freshSession := by decide

/-- C3 (amended): `create_session` performs no duplicate check: for every
state and id — bound or not — it returns a fresh `CREATED` session and
stores it under the id, overwriting any existing binding. -/
theorem create_always_inserts_fresh (st : ServiceState) (sid : String) :
    (createSession st sid).1 = freshSession
    ∧ lookupSession (createSession st sid).2 sid = some freshSession :=
  ⟨rfl, lookupSession_store st.sessions st.reclaims sid freshSession⟩

/-- C4 (counterexample): ending the same session twice starts a second
cleanup thread — after the second `end_session` call two reclamations are
pending for `"s4"`, where after the first there was one.  This refutes
the part of the claim that no second reclamation is scheduled for the
same id. -/
theorem endSession_schedules_second_reclamation :
    (endSession (endSession (createSession emptyState "s4").2 "s4").2 "s4").2.reclaims
        = ["s4", "s4"]
    ∧ (endSession (createSession emptyState "s4").2 "s4").2.reclaims = ["s4"] := by
  decide

/-- C4 (amended): a second `end_session` on the same id returns the same
summary and leaves the registry contents unchanged (marking an inactive
session inactive again is a no-op), but it does schedule one more
reclamation for the id; the duplicate reclamation is harmless, since the
cleanup body deletes only a still-present id (running it twice equals
running it once). -/
theorem endSession_second_call_effect (st : ServiceState) (sid : String)
    (sess : Session) (h : lookupSession st sid = some sess) :
    (endSession (endSession st sid).2 sid).1 = (endSession st sid).1
    ∧ (endSession (endSession st sid).2 sid).2.sessions = (endSession st sid).2.sessions
    ∧ (endSession (endSession st sid).2 sid).2.reclaims
        = (endSession st sid).2.reclaims ++ [sid]
    ∧ runReclaim (runReclaim (endSession (endSession st sid).2 sid).2 sid) sid
        = runReclaim (endSession (endSession st sid).2 sid).2 sid := by
  have h1 : lookupSession
      ⟨storeSession st.sessions sid { sess with isActive := false }, st.reclaims ++ [sid]⟩
      sid = some { sess with isActive := false } :=
    lookupSession_store st.sessions (st.reclaims ++ [sid]) sid _
  refine ⟨?_, ?_, ?_, runReclaim_idem _ _⟩
  · simp only [endSession, getSessionSummary, h, h1]
    simp [summaryOf]
  · simp only [endSession, getSessionSummary, h, h1]
    exact storeSession_idem st.sessions sid _ _
  · simp only [endSession, getSessionSummary, h, h1]

theorem endSession_second_call_effect_witness :
    (endSession (endSession (createSession emptyState "w4").2 "w4").2 "w4").1
        = (endSession (createSession emptyState "w4").2 "w4").1
    ∧ (endSession (endSession (createSession emptyState "w4").2 "w4").2 "w4").2.sessions
        = (endSession (createSession emptyState "w4").2 "w4").2.sessions
    ∧ (endSession (endSession (createSession emptyState "w4").2 "w4").2 "w4").2.reclaims
        = (endSession (createSession emptyState "w4").2 "w4").2.reclaims ++ ["w4"]
    ∧ runReclaim (runReclaim
          (endSession (endSession (createSession emptyState "w4").2 "w4").2 "w4").2 "w4") "w4"
        = runReclaim
            (endSession (endSession (createSession emptyState "w4").2 "w4").2 "w4").2 "w4" :=
  endSession_second_call_effect (createSession emptyState "w4").2 "w4" freshSession
    (by decide)

/-- C8: `get_session_summary` is read-only and uncached: it returns the
service state untouched (no `is_active` mutation, no reclamation
scheduled), its result is recomputed purely from the current session
state on every call, the reported transcript is the texts of the current
segments joined by single spaces, and the Insight Capability is invoked
only when that transcript is non-empty (for a session with no segments
the transcript is `""` and the capability is not invoked). -/
theorem getSummary_read_only_recomputed (st : ServiceState) (sid : String)
    (sess : Session) (h : lookupSession st sid = some sess) :
    (getSessionSummary st sid).2 = st
    ∧ (getSessionSummary st sid).1 = SummaryResponse.ok (summaryOf sid sess)
    ∧ (summaryOf sid sess).fullTranscription
        = String.intercalate " " (sess.segments.map Segment.text)
    ∧ ((summaryOf sid sess).insightInvoked = true →
        (summaryOf sid sess).fullTranscription ≠ "")
    ∧ (sess.segments = [] →
        (summaryOf sid sess).fullTranscription = ""
        ∧ (summaryOf sid sess).insightInvoked = false) := by
  refine ⟨by simp [getSessionSummary, h], by simp [getSessionSummary, h], rfl, ?_, ?_⟩
  · intro hi he
    rw [show (summaryOf sid sess).insightInvoked
          = decide (¬ stripStr (summaryOf sid sess).fullTranscription = "") from rfl,
        he] at hi
    exact of_decide_eq_true hi (by decide)
  · intro hs
    constructor
    · rw [show (summaryOf sid sess).fullTranscription
            = String.intercalate " " (sess.segments.map Segment.text) from rfl, hs]
      decide
    · rw [show (summaryOf sid sess).insightInvoked
            = decide (¬ stripStr (String.intercalate " "
                (sess.segments.map Segment.text)) = "") from rfl, hs]
      decide

theorem getSummary_read_only_recomputed_witness :
    (getSessionSummary (createSession emptyState "w8").2 "w8").2
        = (createSession emptyState "w8").2
    ∧ (getSessionSummary (createSession emptyState "w8").2 "w8").1
        = SummaryResponse.ok (summaryOf "w8" freshSession)
    ∧ (summaryOf "w8" freshSession).fullTranscription
        = String.intercalate " " (freshSession.segments.map Segment.text)
    ∧ ((summaryOf "w8" freshSession).insightInvoked = true →
        (summaryOf "w8" freshSession).fullTranscription ≠ "")
    ∧ (freshSession.segments = [] →
        (summaryOf "w8" freshSession).fullTranscription = ""
        ∧ (summaryOf "w8" freshSession).insightInvoked = false) :=
  getSummary_read_only_recomputed (createSession emptyState "w8").2 "w8" freshSession
    (by decide)

/-- C9 (implicit): `duration_seconds` in every summary equals the sum of
the byte sizes of all chunks ever received divided by `sample_rate * 2`,
so bytes still sitting untranscribed in the pending buffer are counted
too, and the value can strictly exceed the total duration of the recorded
transcript segments — e.g. after one 100-byte chunk that never flushed,
`duration_seconds` is positive while no segment exists. -/
theorem duration_counts_all_received_bytes (st : ServiceState) (sid : String)
    (sess : Session) (h : lookupSession st sid = some sess) :
    (getSessionSummary st sid).1 = SummaryResponse.ok (summaryOf sid sess)
    ∧ (summaryOf sid sess).durationSeconds
        = (sess.audioChunks.sum : ℚ) / ((sampleRate : ℚ) * 2)
    ∧ ∃ sess9 : Session,
        lookupSession (processAudioChunk (createSession emptyState "s9").2 "s9" 100
            (FlushOutcome.ok "")).2 "s9" = some sess9
        ∧ sess9.segments = []
        ∧ (summaryOf "s9" sess9).durationSeconds
            > (sess9.segments.map Segment.duration).sum := by
  refine ⟨by simp [getSessionSummary, h], rfl, ?_⟩
  refine ⟨{ freshSession with audioBuffer := 100, audioChunks := [100] }, by decide, rfl, ?_⟩
  norm_num [summaryOf, sampleRate, freshSession]

theorem duration_counts_all_received_bytes_witness :
    (getSessionSummary (createSession emptyState "w9").2 "w9").1
        = SummaryResponse.ok (summaryOf "w9" freshSession)
    ∧ (summaryOf "w9" freshSession).durationSeconds
        = (freshSession.audioChunks.sum : ℚ) / ((sampleRate : ℚ) * 2)
    ∧ ∃ sess9 : Session,
        lookupSession (processAudioChunk (createSession emptyState "s9").2 "s9" 100
            (FlushOutcome.ok "")).2 "s9" = some sess9
        ∧ sess9.segments = []
        ∧ (summaryOf "s9" sess9).durationSeconds
            > (sess9.segments.map Segment.duration).sum :=
  duration_counts_all_received_bytes (createSession emptyState "w9").2 "w9" freshSession
    (by decide)

/-- C10 (implicit): the public operations wrap their whole body in
`try/except`, so a failure is reported as the error
dictionary rather than a raised exception — in particular an unknown
session id makes `process_audio_chunk`, `get_session_summary` and
`end_session` all return the error dictionary with the `ValueError`
message, leaving the state untouched.  (In the embedding the operations
are total functions into response dictionaries: no exception can escape
by construction, mirroring the catch-all handlers in the source.) -/
theorem unknown_session_yields_error_dict (st : ServiceState) (sid : String)
    (dataLen : Nat) (fl : FlushOutcome) (h : lookupSession st sid = none) :
    processAudioChunk st sid dataLen fl
        = (ChunkResponse.error ("Session " ++ sid ++ " not found"), st)
    ∧ getSessionSummary st sid
        = (SummaryResponse.error ("Session " ++ sid ++ " not found"), st)
    ∧ endSession st sid
        = (SummaryResponse.error ("Session " ++ sid ++ " not found"), st) := by
  refine ⟨?_, ?_, ?_⟩ <;> simp [processAudioChunk, getSessionSummary, endSession, h]

theorem unknown_session_yields_error_dict_witness :
    processAudioChunk emptyState "ghost" 3 (FlushOutcome.ok "x")
        = (ChunkResponse.error ("Session " ++ "ghost" ++ " not found"), emptyState)
    ∧ getSessionSummary emptyState "ghost"
        = (SummaryResponse.error ("Session " ++ "ghost" ++ " not found"), emptyState)
    ∧ endSession emptyState "ghost"
        = (SummaryResponse.error ("Session " ++ "ghost" ++ " not found"), emptyState) :=
  unknown_session_yields_error_dict emptyState "ghost" 3 (FlushOutcome.ok "x") (by decide)

end RealTime
